import Mathlib

/-!
Verification of the SAR narrative-generation backend (`src/backend/`).

The development shallowly embeds the pure decision core of the pipeline:
`evidence.py` (PII masking, decision-dataset building, evidence packs),
`rules.py` (the three typology rules), `risk_engine.py` (weighted risk
scoring), `llm.py` (the deterministic fallback narrative), `sar_formatter.py`
(section formatting), `explainability.py`, `validation_v2.py`,
`main.py` (the pipeline composition, hallucination guard and the review
endpoints) and `review_workflow.py` (the case state machine).

Modelling conventions, chosen once and used throughout:
* Python numbers (floats and ints flowing through the decision math) are
  embedded as `ℚ`; every concrete value the claims touch is a dyadic
  rational on which Python float arithmetic is exact.
* Timestamps are embedded post-parse as `Option ℚ` (seconds on a linear
  time line): `build_decision_dataset` converts each transaction's
  ISO-8601 string to a `datetime` or `None`, and everything downstream
  consumes only the ordered field, so the parse itself is represented by
  the `Option`.
* Python `str` operations used by the code (`lower`, single-character
  `replace`, `strip`, whitespace `split`, substring `in`) are re-implemented
  over `List Char` in the `Py` namespace so that they compute by kernel
  reduction; they follow Python semantics, not Lean's `String` library.
* Wall-clock fields (`triggered_at`, `generated_at`) and the display-only
  `round(x, k)` / `:.1f` formatting inside human-readable rationale and
  evidence strings are not observable by any claim; formatting of numbers
  into those strings is abstracted as `toString`, while `round(x, 2)` on
  the stored numeric fields is embedded exactly (`pyRound2`, banker's
  rounding as in Python).
* Nested JSON-ish values (the customer profile that `mask_pii` walks) are
  a mutually inductive tagged model `Val`/`ValList`/`ValDict`, as the
  untyped Python dict/list/scalar data.
-/

namespace Py

/-- Python `str.lower()` restricted to the characters the code passes it. -/
def lower (s : String) : String := ⟨s.data.map Char.toLower⟩

/-- Python `str.replace(old, new)` for a single-character `old` (the only
form the source uses: `" "→"_"`, `"&"→"and"`, `"\n"→" "`): occurrences of a
one-character pattern never overlap, so the replacement is a character-wise
expansion. -/
def replaceChar (pat : Char) (rep : List Char) : List Char → List Char
  | [] => []
  | c :: t => (if c = pat then rep else [c]) ++ replaceChar pat rep t

/-- Python `str.strip()`: drop leading and trailing whitespace. -/
def stripList (l : List Char) : List Char :=
  ((l.dropWhile Char.isWhitespace).reverse.dropWhile Char.isWhitespace).reverse

/-- Python `str.strip()` on `String`. -/
def strip (s : String) : String := ⟨stripList s.data⟩

/-- Python `str.split()` with no argument: split on whitespace runs,
discarding empty pieces. `acc` holds the current word reversed. -/
def splitWsGo (acc : List Char) : List Char → List (List Char)
  | [] => if acc.isEmpty then [] else [acc.reverse]
  | c :: t =>
    if c.isWhitespace then
      if acc.isEmpty then splitWsGo [] t else acc.reverse :: splitWsGo [] t
    else splitWsGo (c :: acc) t

/-- Python `str.split()` with no argument. -/
def splitWs (l : List Char) : List (List Char) := splitWsGo [] l

/-- Python `str.isdigit()` restricted to ASCII digits (the validator only
meets ASCII text). -/
def isAllDigits (l : List Char) : Bool := !l.isEmpty && l.all Char.isDigit

/-- Python `pat in s` substring containment. -/
def containsSub (pat : List Char) : List Char → Bool
  | [] => pat.isEmpty
  | c :: t => pat.isPrefixOf (c :: t) || containsSub pat t

/-- Python substring containment on `String`. -/
def containsSubStr (pat s : String) : Bool := containsSub pat.data s.data

/-- Python `a or b` for strings: `a` unless `a` is falsy (empty). -/
def orStr (a : Option String) (b : String) : String :=
  match a with
  | some s => if s = "" then b else s
  | none => b

end Py

/-! ## Tagged value model for untyped nested data (`evidence.py:mask_pii`) -/

mutual
/-- An untyped Python value: the scalars, lists and string-keyed dicts that
`mask_pii` walks. -/
inductive Val : Type where
  | null : Val
  | bool (b : Bool) : Val
  | int (n : Int) : Val
  | str (s : String) : Val
  | list (xs : ValList) : Val
  | dict (kvs : ValDict) : Val

/-- A Python list of `Val`s. -/
inductive ValList : Type where
  | nil : ValList
  | cons (head : Val) (tail : ValList) : ValList

/-- A Python dict as an ordered association list. -/
inductive ValDict : Type where
  | nil : ValDict
  | cons (key : String) (value : Val) (tail : ValDict) : ValDict
end

/-- Python truthiness of a value (`not value` tests in the source). -/
def Val.falsy : Val → Bool
  | .null => true
  | .bool b => !b
  | .int n => n == 0
  | .str s => s.data.isEmpty
  | .list .nil => true
  | .list _ => false
  | .dict .nil => true
  | .dict _ => false

/-- An apostrophe character, used when rendering the `repr` of a string. -/
def quoteChar : Char := Char.ofNat 39

mutual
/-- Python `repr` of a value, as `str` renders it inside containers. String
escaping is restricted to plain quoting (no claim observes repr text). -/
def Val.pyRepr : Val → String
  | .null => "None"
  | .bool b => if b then "True" else "False"
  | .int n => toString n
  | .str s => String.singleton quoteChar ++ s ++ String.singleton quoteChar
  | .list xs => "[" ++ ValList.pyReprInner xs ++ "]"
  | .dict kvs => "\x7b" ++ ValDict.pyReprInner kvs ++ "\x7d"

/-- Comma-separated `repr`s of a list's elements. -/
def ValList.pyReprInner : ValList → String
  | .nil => ""
  | .cons v .nil => v.pyRepr
  | .cons v t => v.pyRepr ++ ", " ++ ValList.pyReprInner t

/-- Comma-separated `key: value` `repr`s of a dict's items. -/
def ValDict.pyReprInner : ValDict → String
  | .nil => ""
  | .cons k v .nil => String.singleton quoteChar ++ k ++ String.singleton quoteChar ++ ": " ++ v.pyRepr
  | .cons k v t =>
      String.singleton quoteChar ++ k ++ String.singleton quoteChar ++ ": " ++ v.pyRepr ++ ", " ++
        ValDict.pyReprInner t
end

/-- Python `str(value)`, as `_mask_value` applies it. -/
def Val.pyStr : Val → String
  | .str s => s
  | v => v.pyRepr

/-- Sensitive field names (`evidence.py:PII_FIELDS`). -/
def PII_FIELDS : List String :=
  ["name", "customer_name", "account_number", "customer_id", "address",
   "email", "phone", "dob"]

/-- Embeds `evidence.py:_mask_value`: falsy values pass through; otherwise the
string form is fully replaced by `"****"` when its length is at most 4, and
keeps its first two and last two characters around `"****"` otherwise. -/
def maskValue (v : Val) : Val :=
  if v.falsy then v
  else
    let s := v.pyStr
    if s.data.length ≤ 4 then .str "****"
    else .str ⟨s.data.take 2 ++ ['*', '*', '*', '*'] ++ (s.data.reverse.take 2).reverse⟩

mutual
/-- Embeds `evidence.py:mask_pii`: mask values of sensitive keys, recurse through
other dict entries and through lists, return scalars unchanged. -/
def maskPii : Val → Val
  | .null => .null
  | .bool b => .bool b
  | .int n => .int n
  | .str s => .str s
  | .list xs => .list (maskPiiList xs)
  | .dict kvs => .dict (maskPiiDict kvs)

/-- Embeds `mask_pii` mapped over a list. -/
def maskPiiList : ValList → ValList
  | .nil => .nil
  | .cons v t => .cons (maskPii v) (maskPiiList t)

/-- Embeds `mask_pii` over a dict's entries. -/
def maskPiiDict : ValDict → ValDict
  | .nil => .nil
  | .cons k v t =>
    if PII_FIELDS.contains k then .cons k (maskValue v) (maskPiiDict t)
    else .cons k (maskPii v) (maskPiiDict t)
end

/-- Lookup in the dict model (first matching key, as Python's unique-keyed
dicts). -/
def ValDict.lookup (k : String) : ValDict → Option Val
  | .nil => none
  | .cons k' v t => if k' = k then some v else ValDict.lookup k t

/-- Python `d.get(key, default)` on a `Val` known to be a dict (`{}` for
anything else, as the source's `.get("customer", {})` defaults). -/
def Val.getD (v : Val) (k : String) (dflt : Val) : Val :=
  match v with
  | .dict kvs => (kvs.lookup k).getD dflt
  | _ => dflt

/-- The keys of a dict, in order. -/
def ValDict.keys : ValDict → List String
  | .nil => []
  | .cons k _ t => k :: ValDict.keys t

/-- The length of a list value. -/
def ValList.length : ValList → Nat
  | .nil => 0
  | .cons _ t => ValList.length t + 1

/-! ## Data model (`models.py` Case fields, alert/transaction dicts) -/

/-- A transaction dict, post timestamp parse: `amount`, `direction`,
`counterparty`, `country` are the `.get`-accessed optional fields;
`timestamp` is the parsed instant in seconds (`None` when absent or
unparsable, exactly the truthiness the rules test). -/
structure Txn where
  amount : Option ℚ
  direction : Option String
  counterparty : Option String
  country : Option String
  timestamp : Option ℚ
deriving DecidableEq

/-- A raw alert: customer profile (a nested dict value), transactions and
the optional risk-rating hint. -/
structure Alert where
  customer : Val
  transactions : List Txn
  risk_rating : Option String

/-- Python `max(list)` (`None` on an empty list, where Python would not be
called: the source guards with truthiness first). -/
def pyMax : List ℚ → Option ℚ
  | [] => none
  | x :: xs => some (match pyMax xs with | none => x | some m => max x m)

/-- Python `min(list)`. -/
def pyMin : List ℚ → Option ℚ
  | [] => none
  | x :: xs => some (match pyMin xs with | none => x | some m => min x m)

/-- The normalized decision dataset (`evidence.py:build_decision_dataset`
output shape). -/
structure DecisionData where
  customer : Val
  transactions : List Txn
  start_ts : Option ℚ
  end_ts : Option ℚ
  period_days : ℚ
  total_amount : ℚ
  unique_counterparties : ℕ
  risk_rating : String

/-- Embeds `evidence.py:build_decision_dataset`: collect the parsed timestamps,
derive the window and aggregates. `unique_counterparties` is
`len({t.get("counterparty") for t in txns})`: the set of raw values, which
keeps `None` as an element when some transaction lacks a counterparty. -/
def build_decision_dataset (alert : Alert) : DecisionData :=
  let txns := alert.transactions
  let timestamps := txns.filterMap Txn.timestamp
  let start_ts := pyMin timestamps
  let end_ts := pyMax timestamps
  let period_days : ℚ :=
    match pyMin timestamps, pyMax timestamps with
    | some s, some e => (e - s) / 86400
    | _, _ => 0
  { customer := alert.customer
    transactions := txns
    start_ts := start_ts
    end_ts := end_ts
    period_days := period_days
    total_amount := txns.foldl (fun acc t => acc + t.amount.getD 0) 0
    unique_counterparties := (txns.map Txn.counterparty).toFinset.card
    risk_rating := alert.risk_rating.getD "medium" }

/-! ## Rule engine (`rules.py`) -/

/-- Embeds `rules.py:RULE_VERSION`. -/
def RULE_VERSION : String := "v0.1"

/-- One evidence block. The wall-clock `triggered_at` field is not
representable in a pure embedding and carries no decision content; it is
omitted. -/
structure EvidenceBlock where
  rule_id : String
  rule_name : String
  confidence_score : ℚ
  evidence : List String
  rule_version : String
deriving DecidableEq

/-- Rule AML-001 (structuring / sub-threshold aggregation),
`rules.py` lines 18-32: count transactions with amount strictly below
100000; fire when that count is at least 20 and the window is at most 10
days. Numeric formatting inside the human-readable evidence strings is
abstracted as `toString`. -/
def ruleA (d : DecisionData) : Option EvidenceBlock :=
  let small_txns := d.transactions.filter (fun t => t.amount.getD 0 < 100000)
  if small_txns.length ≥ 20 ∧ d.period_days ≤ 10 then
    some
      { rule_id := "AML-001"
        rule_name := "Structuring — Sub-Threshold Aggregation"
        confidence_score := 82 / 100
        evidence :=
          [toString small_txns.length ++ " transactions in " ++ toString d.period_days ++
             "-day window (threshold: 20)",
           "Average amount: " ++
             toString (d.total_amount / max (d.transactions.length : ℚ) 1),
           toString d.unique_counterparties ++ " unique counterparties"]
        rule_version := RULE_VERSION }
  else none

/-- Whether a transaction is inbound with a truthy (present) timestamp. -/
def isInbound (t : Txn) : Bool := t.direction == some "in" && t.timestamp.isSome

/-- Whether a transaction is outbound with a truthy (present) timestamp. -/
def isOutbound (t : Txn) : Bool := t.direction == some "out" && t.timestamp.isSome

/-- Rule AML-017 (rapid movement), `rules.py` lines 34-53: with both an
inbound and an outbound timestamped transaction, fire when the delta in
hours from the latest inbound to the earliest outbound lies in [0, 6].
`max(inbound, key=ts)`/`min(outbound, key=ts)` select elements whose
timestamps are the extrema, so only those extremal timestamps matter. -/
def ruleB (d : DecisionData) : Option EvidenceBlock :=
  let inbound := d.transactions.filter isInbound
  let outbound := d.transactions.filter isOutbound
  match pyMax (inbound.filterMap Txn.timestamp), pyMin (outbound.filterMap Txn.timestamp) with
  | some last_in, some first_out =>
    let delta_hours := (first_out - last_in) / 3600
    if 0 ≤ delta_hours ∧ delta_hours ≤ 6 then
      some
        { rule_id := "AML-017"
          rule_name := "Rapid Fund Movement"
          confidence_score := 79 / 100
          evidence :=
            ["Immediate outbound transfer within " ++ toString delta_hours ++ " hours",
             "No holding period observed"]
          rule_version := RULE_VERSION }
    else none
  | _, _ => none

/-- The fixed high-risk jurisdiction set of rule AML-021. -/
def highRiskCountries : List String := ["IR", "KP", "SY", "RU"]

/-- Whether a transaction's country lies in the high-risk set (`None` is
never a member). -/
def isHighRiskTxn (t : Txn) : Bool :=
  match t.country with
  | some c => highRiskCountries.contains c
  | none => false

/-- Rule AML-021 (high-risk corridor), `rules.py` lines 55-68. -/
def ruleC (d : DecisionData) : Option EvidenceBlock :=
  let risky := d.transactions.filter isHighRiskTxn
  if risky.length ≠ 0 then
    some
      { rule_id := "AML-021"
        rule_name := "High-Risk Corridor"
        confidence_score := 7 / 10
        evidence := [toString risky.length ++ " transactions linked to high-risk jurisdictions"]
        rule_version := RULE_VERSION }
  else none

/-- Embeds `rules.py:evaluate_rules`: the blocks of the three rules in source
order plus the (downstream-unused) sum of their confidences. -/
def evaluate_rules (d : DecisionData) : List EvidenceBlock × ℚ :=
  let evidence_blocks := [ruleA d, ruleB d, ruleC d].filterMap id
  (evidence_blocks, evidence_blocks.foldl (fun acc b => acc + b.confidence_score) 0)

/-! ## Risk engine (`risk_engine.py`) -/

/-- Python `round(x, 2)` (banker's rounding), applied by the source to the
stored contributing factors and to the formatter's numeric metadata. -/
def roundHalfEven (x : ℚ) : ℤ :=
  let f := ⌊x⌋
  let r := x - f
  if r < 1 / 2 then f
  else if 1 / 2 < r then f + 1
  else if Even f then f else f + 1

/-- Python `round(x, 2)` on the value itself. -/
def pyRound2 (x : ℚ) : ℚ := (roundHalfEven (x * 100) : ℚ) / 100

/-- The risk assessment record (`risk_engine.py:RiskAssessment`). -/
structure RiskAssessment where
  risk_score : ℚ
  risk_level : String
  contributing_factors : List (String × ℚ)
  rationale : List String
deriving DecidableEq

/-- Embeds `risk_engine.py:RISK_LEVEL_THRESHOLDS` as a lookup. -/
def RISK_LEVEL_THRESHOLDS (level : String) : ℚ :=
  if level = "CRITICAL" then 85
  else if level = "HIGH" then 60
  else if level = "MEDIUM" then 30
  else 0

/-- Embeds `risk_engine.py:_normalize_score`: clamp into [0, 100]. -/
def normalize_score (score : ℚ) : ℚ := max 0 (min 100 score)

/-- Embeds `risk_engine.py:_derive_level`: highest threshold first. -/
def derive_level (score : ℚ) : String :=
  if score ≥ RISK_LEVEL_THRESHOLDS "CRITICAL" then "CRITICAL"
  else if score ≥ RISK_LEVEL_THRESHOLDS "HIGH" then "HIGH"
  else if score ≥ RISK_LEVEL_THRESHOLDS "MEDIUM" then "MEDIUM"
  else "LOW"

/-- The structuring factor of `assess_risk` (`risk_engine.py` lines 64-67):
zero without transactions, otherwise the fraction of transactions of amount
strictly below 10000, times 30, capped at 30. -/
def structuringScore (txns : List Txn) : ℚ :=
  if txns.isEmpty then 0
  else
    min 30 ((((txns.filter (fun t => t.amount.getD 0 < 10000)).length : ℚ) / txns.length) * 30)

/-- Embeds `risk_engine.py:assess_risk`: the five bounded factors, their weighted
mean, the clamp and the threshold level. The dead local `risk_rating`
(computed but never read) is not bound; `:.1f` display formatting inside
rationale strings is abstracted as `toString`. -/
def assess_risk (decision_data : DecisionData) (evidence_blocks : List EvidenceBlock) :
    RiskAssessment :=
  let txns := decision_data.transactions
  let total_amount := decision_data.total_amount
  let period_days := max decision_data.period_days 1
  let counterparties := decision_data.unique_counterparties
  let velocity := (txns.length : ℚ) / period_days
  let velocity_score := min 40 (velocity * 4)
  let structuring_score := structuringScore txns
  let high_risk_rules :=
    ((evidence_blocks.filter (fun b => Py.containsSubStr "AML-021" b.rule_id)).map
        EvidenceBlock.rule_id).toFinset
  let jurisdiction_score : ℚ := if high_risk_rules ≠ ∅ then 25 else 5
  let pep_tags := decision_data.customer.getD "pep_flags" (.list .nil)
  let pep_score : ℚ := if pep_tags.falsy then 5 else 30
  let historical_score : ℚ := 10 + min 30 ((counterparties : ℚ) * 2 + total_amount / 1000000)
  let weighted_sum :=
    (velocity_score * 22 + structuring_score * 20 + jurisdiction_score * 18 +
        pep_score * 20 + historical_score * 20) / 100
  let score := normalize_score weighted_sum
  { risk_score := score
    risk_level := derive_level score
    contributing_factors :=
      [("transaction_velocity", pyRound2 velocity_score),
       ("structuring_pattern", pyRound2 structuring_score),
       ("jurisdiction_risk", pyRound2 jurisdiction_score),
       ("pep_involvement", pyRound2 pep_score),
       ("historical_deviation", pyRound2 historical_score)]
    rationale :=
      ["Velocity factor: " ++ toString velocity_score ++ " based on " ++
         toString txns.length ++ " txns over " ++ toString period_days ++ " days",
       "Structuring factor: " ++ toString structuring_score ++ " from sub-threshold patterns",
       "Jurisdiction factor: " ++ toString jurisdiction_score ++ " (high-risk rule triggered: " ++
         toString (high_risk_rules ≠ ∅ : Bool) ++ ")",
       "PEP factor: " ++ toString pep_score ++ " (PEP flags present: " ++
         toString (!pep_tags.falsy) ++ ")",
       "Historical deviation: " ++ toString historical_score ++ " (counterparties=" ++
         toString counterparties ++ ", total_amount=" ++ toString total_amount ++ ")"] }

/-! ## Evidence pack (`evidence.py:build_evidence_pack`) and the
deterministic fallback narrative (`llm.py:_generate_mock_narrative`) -/

/-- The compact numeric summary placed into the evidence pack. The
`isoformat()` rendering of the window endpoints is abstracted as
`toString` of the instant (only presence/absence is observable). -/
structure Summary where
  risk_rating : String
  period_start : Option String
  period_end : Option String
  transaction_count : ℕ
  total_amount : ℚ
  unique_counterparties : ℕ

/-- The narrative input dataset. The wall-clock `generated_at` field is
omitted; `copy.deepcopy` of immutable data is the identity in a pure
embedding. -/
structure EvidencePack where
  summary : Summary
  customer_profile : Val
  evidence_blocks : List EvidenceBlock

/-- Embeds `evidence.py:build_evidence_pack`. -/
def build_evidence_pack (decision_data : DecisionData) (evidence_blocks : List EvidenceBlock) :
    EvidencePack :=
  { summary :=
      { risk_rating := decision_data.risk_rating
        period_start := decision_data.start_ts.map toString
        period_end := decision_data.end_ts.map toString
        transaction_count := decision_data.transactions.length
        total_amount := decision_data.total_amount
        unique_counterparties := decision_data.unique_counterparties }
    customer_profile := maskPii decision_data.customer
    evidence_blocks := evidence_blocks }

/-- Embeds `llm.py:_generate_mock_narrative`: the deterministic fallback
generator's sectioned output, as a key-to-text association list. The
unused local `subject` is not bound. `summary.get('period_days', 'N/A')`
always yields `'N/A'` because the summary carries no such key; the numeric
`confidence_level: 0.82` entry is rendered as text here (no formatter
section key ever resolves to it). -/
def generate_mock_narrative (narrative_dataset : EvidencePack) : List (String × String) :=
  let summary := narrative_dataset.summary
  let evidence_blocks := narrative_dataset.evidence_blocks
  let rule_ids := evidence_blocks.map EvidenceBlock.rule_id
  [("subject_information",
      "Customer exhibits activity inconsistent with declared profile during " ++
        summary.period_start.getD "N/A" ++ " to " ++ summary.period_end.getD "N/A"),
   ("account_details",
      "Account handled " ++ toString summary.transaction_count ++ " transactions totaling " ++
        toString summary.total_amount ++ " across " ++ toString summary.unique_counterparties ++
        " counterparties."),
   ("alert_summary",
      "Alert triggered due to velocity and counterparty concentration over " ++ "N/A" ++ " days."),
   ("transaction_pattern_analysis",
      "Patterns show compressed inbound followed by outbound movement consistent with structuring and layering."),
   ("suspicious_behaviour_indicators",
      String.intercalate "; " (evidence_blocks.map EvidenceBlock.rule_name)),
   ("supporting_evidence", String.intercalate ", " rule_ids),
   ("regulatory_justification",
      "Activity meets reporting thresholds and typologies referenced in AML-001/AML-017 guidance."),
   ("investigator_assessment",
      "Narrative compiled with masked PII and bounded evidence set."),
   ("conclusion_recommendation",
      "File SAR and monitor for escalation; consider enhanced due diligence."),
   ("confidence_level", "0.82")]

/-! ## Formatter (`sar_formatter.py`) -/

/-- Embeds `sar_formatter.py:SECTION_ORDER`. -/
def SECTION_ORDER : List String :=
  ["Subject Information", "Account Details", "Alert Summary",
   "Transaction Pattern Analysis", "Suspicious Behaviour Indicators",
   "Supporting Evidence", "Regulatory Justification",
   "Investigator Assessment", "Conclusion & Recommendation"]

/-- Embeds `sar_formatter.py:_as_paragraph`: strip, newline-to-space, and the
`"Not provided."` placeholder for blank text. -/
def as_paragraph (text : String) : String :=
  let t := Py.strip text
  if t = "" then "Not provided." else ⟨Py.replaceChar '\n' [' '] t.data⟩

/-- The normalized lookup key for a section title:
`section.lower().replace(" ", "_").replace("&", "and")`. -/
def sectionKey (sec : String) : String :=
  ⟨Py.replaceChar '&' "and".data (Py.replaceChar ' ' ['_'] (Py.lower sec).data)⟩

/-- The formatted narrative (`sar_formatter.py:format_sar_narrative`
result). -/
structure Formatted where
  sections : List (String × String)
  risk_score : ℚ
  risk_level : String
  confidence_level : ℚ
  evidence_citations : List String
  contributing_factors : List (String × ℚ)
deriving DecidableEq

/-- The text `format_sar_narrative` places under one section title: the
generator's value under the normalized key, else under the literal title,
else the blank default — with Python's falsy `or` chain, so an empty string
also falls through — passed through `_as_paragraph`. -/
def formattedSectionValue (llm_sections : List (String × String)) (sec : String) : String :=
  as_paragraph
    (Py.orStr (llm_sections.lookup (sectionKey sec)) (Py.orStr (llm_sections.lookup sec) ""))

/-- Embeds `sar_formatter.py:format_sar_narrative`: the fixed nine sections
in order, each resolved through `formattedSectionValue`, with the numeric
metadata rounded to two decimals as the source does. -/
def format_sar_narrative (llm_sections : List (String × String)) (risk_score : ℚ)
    (risk_level : String) (confidence_level : ℚ) (evidence_citations : List String)
    (contributing_factors : List (String × ℚ)) : Formatted :=
  { sections := SECTION_ORDER.map fun sec => (sec, formattedSectionValue llm_sections sec)
    risk_score := pyRound2 risk_score
    risk_level := risk_level
    confidence_level := pyRound2 confidence_level
    evidence_citations := evidence_citations
    contributing_factors := contributing_factors }

/-! ## Explainability (`explainability.py`) and validation (`validation_v2.py`) -/

/-- One explainability trace entry. The source's `section` key is named
`sectionName` here (`section` is a Lean keyword). -/
structure TraceEntry where
  sectionName : String
  statement : String
  supporting_evidence_id : String
  rule_triggered : String
  confidence_weight : ℚ
  evidence_details : List String
deriving DecidableEq

/-- Embeds `explainability.py:build_explainability_trace`: all pairs of formatted
sections and triggered rules. Within one evaluation the three rule ids are
distinct, so the `{rule_id: block}` dict enumerates the blocks in order. -/
def build_explainability_trace (formatted_narrative : Formatted)
    (evidence_blocks : List EvidenceBlock) : List TraceEntry :=
  formatted_narrative.sections.flatMap fun st =>
    evidence_blocks.map fun b =>
      { sectionName := st.1
        statement := ⟨st.2.data.take 240⟩
        supporting_evidence_id := b.rule_id
        rule_triggered := b.rule_name
        confidence_weight := b.confidence_score
        evidence_details := b.evidence }

/-- Embeds `validation_v2.py:REQUIRED_SECTIONS`. -/
def REQUIRED_SECTIONS : List String :=
  ["Subject Information", "Account Details", "Alert Summary",
   "Transaction Pattern Analysis", "Suspicious Behaviour Indicators",
   "Supporting Evidence", "Regulatory Justification",
   "Investigator Assessment", "Conclusion & Recommendation"]

/-- The validation result record. -/
structure ValidationResult where
  passed : Bool
  errors : List String
  warnings : List String
  summary : String
deriving DecidableEq

/-- The per-section blocking check of `validation_v2.py:validate_v2`:
an error for a missing required section, an error for a blank one. -/
def sectionError (sections : List (String × String)) (sec : String) : Option String :=
  match sections.lookup sec with
  | none => some ("Missing section: " ++ sec)
  | some text => if Py.strip text = "" then some ("Empty section: " ++ sec) else none

/-- The blocking errors of `validation_v2.py:validate_v2`: section errors in
order, then the citation check. -/
def validate_v2_errors (formatted_narrative : Formatted) : List String :=
  (REQUIRED_SECTIONS.filterMap (sectionError formatted_narrative.sections)) ++
    (if formatted_narrative.evidence_citations.isEmpty then
      ["No evidence citations provided"]
    else [])

/-- The non-blocking warnings of `validation_v2.py:validate_v2`: missing
evidence ids, clarity/digit heuristics per section, then coverage. -/
def validate_v2_warnings (formatted_narrative : Formatted)
    (explainability_trace : List TraceEntry) : List String :=
  (if (explainability_trace.filter fun t => t.supporting_evidence_id = "").isEmpty then []
   else ["Some statements lack evidence ids"]) ++
    (formatted_narrative.sections.flatMap fun st =>
      (if st.2.data.length < 40 then ["Narrative clarity low in section: " ++ st.1] else []) ++
        (if 0 < st.2.data.length ∧ st.2.data.any Char.isDigit ∧ 6 < st.2.data.length ∧
             (Py.splitWs st.2.data).any (fun tok => Py.isAllDigits tok && 6 ≤ tok.length) then
          ["Possible unmasked PII detected in " ++ st.1]
        else [])) ++
    (REQUIRED_SECTIONS.filterMap fun sec =>
      if explainability_trace.any (fun t => t.sectionName = sec) then none
      else some ("No explainability coverage for " ++ sec))

/-- Embeds `validation_v2.py:validate_v2`: pass exactly when no blocking
error accumulated. -/
def validate_v2 (formatted_narrative : Formatted) (explainability_trace : List TraceEntry) :
    ValidationResult :=
  let errors := validate_v2_errors formatted_narrative
  let passed := errors.isEmpty
  { passed := passed
    errors := errors
    warnings := validate_v2_warnings formatted_narrative explainability_trace
    summary := if passed then "Validation passed" else "Validation requires attention" }

/-! ## Pipeline composition and the hallucination guard (`main.py`) -/

/-- Embeds `main.py:_confidence_from_evidence`: the mean confidence, or 0.5
without evidence. -/
def confidence_from_evidence (evidence_blocks : List EvidenceBlock) : ℚ :=
  if evidence_blocks.isEmpty then 1 / 2
  else
    (evidence_blocks.foldl (fun acc b => acc + b.confidence_score) 0) /
      evidence_blocks.length

/-- Embeds `main.py:_hallucination_guard` as a predicate: `True` exactly when the
guard raises (citation set falsy-empty, or not a subset of the triggered
rule-id set). -/
def hallucination_guard_rejects (formatted_narrative : Formatted)
    (evidence_blocks : List EvidenceBlock) : Bool :=
  let citations := formatted_narrative.evidence_citations.toFinset
  let rule_ids := (evidence_blocks.map EvidenceBlock.rule_id).toFinset
  decide (citations = ∅) || !decide (citations ⊆ rule_ids)

/-- The decision dataset a pipeline run builds (`main.py:run_pipeline`,
stage 1). -/
def pipelineDecision (alert : Alert) : DecisionData := build_decision_dataset alert

/-- The evidence blocks of a pipeline run (stage 2). -/
def pipelineBlocks (alert : Alert) : List EvidenceBlock :=
  (evaluate_rules (pipelineDecision alert)).1

/-- The risk assessment of a pipeline run (stage 3). -/
def pipelineRisk (alert : Alert) : RiskAssessment :=
  assess_risk (pipelineDecision alert) (pipelineBlocks alert)

/-- The evidence pack of a pipeline run (stage 4). -/
def pipelinePack (alert : Alert) : EvidencePack :=
  build_evidence_pack (pipelineDecision alert) (pipelineBlocks alert)

/-- The formatted narrative of a pipeline run. The narrative generator is
modelled by its deterministic fallback (`_generate_mock_narrative`): the
external text-generation transport is out of the embedded core, and on its
failure the source falls back to exactly this output. The retrieved RAG
context is consumed only by the external path. -/
def pipelineFormatted (alert : Alert) : Formatted :=
  format_sar_narrative (generate_mock_narrative (pipelinePack alert))
    (pipelineRisk alert).risk_score (pipelineRisk alert).risk_level
    (confidence_from_evidence (pipelineBlocks alert))
    ((pipelineBlocks alert).map EvidenceBlock.rule_id)
    (pipelineRisk alert).contributing_factors

/-- The validation result of a pipeline run. -/
def pipelineValidation (alert : Alert) : ValidationResult :=
  validate_v2 (pipelineFormatted alert)
    (build_explainability_trace (pipelineFormatted alert) (pipelineBlocks alert))

/-- The fields `run_pipeline` persists on the case when it completes. -/
structure PipelineOutcome where
  decision_data : DecisionData
  evidence_blocks : List EvidenceBlock
  risk : RiskAssessment
  formatted : Formatted
  validation : ValidationResult
  status : String

/-- Embeds `main.py:run_pipeline` (its pure decision core): the staged
computation, the hallucination guard as the only blocking error — on
rejection nothing is committed and the caller receives the error — and
otherwise the persisted outcome with status `DRAFT` or
`VALIDATION_FAILED` by validation. -/
def run_pipeline (alert : Alert) : Except String PipelineOutcome :=
  if hallucination_guard_rejects (pipelineFormatted alert) (pipelineBlocks alert) then
    .error "Narrative rejected: unsupported claims detected"
  else
    .ok
      { decision_data := pipelineDecision alert
        evidence_blocks := pipelineBlocks alert
        risk := pipelineRisk alert
        formatted := pipelineFormatted alert
        validation := pipelineValidation alert
        status := if (pipelineValidation alert).passed then "DRAFT" else "VALIDATION_FAILED" }

/-! ## Case state machine (`review_workflow.py`) and the review endpoints
(`main.py:submit_case/approve_case/reject_case/finalize_case`) -/

/-- Embeds `review_workflow.py:VALID_STATES`. -/
def VALID_STATES : List String :=
  ["DRAFT", "REVIEW", "APPROVED", "SUBMITTED", "REJECTED", "VALIDATION_FAILED"]

/-- Embeds `review_workflow.py:TRANSITIONS` as a lookup (missing state maps to no
targets, as `TRANSITIONS.get(current, [])`). -/
def TRANSITIONS (current : String) : List String :=
  if current = "DRAFT" then ["REVIEW", "VALIDATION_FAILED"]
  else if current = "REVIEW" then ["APPROVED", "REJECTED"]
  else if current = "APPROVED" then ["SUBMITTED"]
  else if current = "REJECTED" then ["DRAFT"]
  else if current = "VALIDATION_FAILED" then ["DRAFT"]
  else []

/-- Embeds `review_workflow.py:can_transition`. -/
def can_transition (current target : String) : Bool :=
  (TRANSITIONS current).contains target

/-- One review-history record (`{user, action, comment}`). -/
structure HistoryEntry where
  user : String
  action : String
  comment : Option String
deriving DecidableEq

/-- Embeds `review_workflow.py:record_history`: append one entry (a null history
is the empty list). -/
def record_history (history : List HistoryEntry) (user action : String)
    (comment : Option String) : List HistoryEntry :=
  history ++ [{ user := user, action := action, comment := comment }]

/-- The mutable case fields the review endpoints touch (`models.py:Case`):
`version`'s column default is 1 but the endpoints re-default a null via
`(case_obj.version or 1)`. -/
structure CaseState where
  status : String
  version : Option ℕ
  review_history : List HistoryEntry
  draft_narrative : Option Formatted
  final_narrative : Option Formatted
  analyst_comment : Option String
  analyst_role : Option String
deriving DecidableEq

/-- A review endpoint's JSON payload (`payload.get` fields). -/
structure ReviewPayload where
  user : Option String
  comment : Option String
  role : Option String
  narrative : Option Formatted

/-- Embeds `main.py:submit_case` on a found case: reject the transition to
REVIEW when illegal (no mutation — the session closes uncommitted), else
set the status, append history and bump the version. The endpoint result
is the (possibly unchanged) case plus HTTP-ish outcome. -/
def submit_case (case_obj : CaseState) (payload : ReviewPayload) :
    CaseState × Except String String :=
  if !can_transition case_obj.status "REVIEW" then
    (case_obj, .error "Invalid transition")
  else
    ({ case_obj with
        status := "REVIEW"
        review_history :=
          record_history case_obj.review_history (payload.user.getD "system") "SUBMITTED"
            payload.comment
        version := some (case_obj.version.getD 1 + 1) },
      .ok "REVIEW")

/-- Embeds `main.py:approve_case` on a found case: no version change. -/
def approve_case (case_obj : CaseState) (payload : ReviewPayload) :
    CaseState × Except String String :=
  if !can_transition case_obj.status "APPROVED" then
    (case_obj, .error "Invalid transition")
  else
    ({ case_obj with
        status := "APPROVED"
        final_narrative :=
          match payload.narrative with
          | some n => some n
          | none => case_obj.draft_narrative
        analyst_comment := payload.comment
        analyst_role := some (payload.role.getD "analyst")
        review_history :=
          record_history case_obj.review_history (payload.role.getD "analyst") "APPROVED"
            payload.comment },
      .ok "APPROVED")

/-- Embeds `main.py:reject_case` on a found case: no version change. -/
def reject_case (case_obj : CaseState) (payload : ReviewPayload) :
    CaseState × Except String String :=
  if !can_transition case_obj.status "REJECTED" then
    (case_obj, .error "Invalid transition")
  else
    ({ case_obj with
        status := "REJECTED"
        analyst_comment := payload.comment
        analyst_role := some (payload.role.getD "analyst")
        review_history :=
          record_history case_obj.review_history (payload.role.getD "analyst") "REJECTED"
            payload.comment },
      .ok "REJECTED")

/-- Embeds `main.py:finalize_case` on a found case: transition to SUBMITTED, no
version change. -/
def finalize_case (case_obj : CaseState) (payload : ReviewPayload) :
    CaseState × Except String String :=
  if !can_transition case_obj.status "SUBMITTED" then
    (case_obj, .error "Invalid transition")
  else
    ({ case_obj with
        status := "SUBMITTED"
        review_history :=
          record_history case_obj.review_history (payload.user.getD "system") "SUBMITTED"
            payload.comment },
      .ok "SUBMITTED")

/-! ## Externally requested review transitions as one dispatch -/

/-- The four externally requestable review actions (the POST endpoints of
`main.py`). -/
inductive ReviewAction : Type where
  | submit : ReviewAction
  | approve : ReviewAction
  | reject : ReviewAction
  | finalize : ReviewAction
deriving DecidableEq

/-- The lifecycle target each endpoint requests. -/
def actionTarget : ReviewAction → String
  | .submit => "REVIEW"
  | .approve => "APPROVED"
  | .reject => "REJECTED"
  | .finalize => "SUBMITTED"

/-- Dispatch an external review request to its endpoint. -/
def applyAction : ReviewAction → CaseState → ReviewPayload → CaseState × Except String String
  | .submit => submit_case
  | .approve => approve_case
  | .reject => reject_case
  | .finalize => finalize_case

/-- The history entry each endpoint records on success. -/
def actionHistoryEntry : ReviewAction → ReviewPayload → HistoryEntry
  | .submit, p => { user := p.user.getD "system", action := "SUBMITTED", comment := p.comment }
  | .approve, p => { user := p.role.getD "analyst", action := "APPROVED", comment := p.comment }
  | .reject, p => { user := p.role.getD "analyst", action := "REJECTED", comment := p.comment }
  | .finalize, p => { user := p.user.getD "system", action := "SUBMITTED", comment := p.comment }

/-- The lifecycle transition table exactly as the specification lists it
(DRAFT→{REVIEW, VALIDATION_FAILED}, REVIEW→{APPROVED, REJECTED},
APPROVED→{SUBMITTED}, REJECTED→{DRAFT}, VALIDATION_FAILED→{DRAFT}),
written from the spec's words to be compared with `can_transition`. -/
def transitionTablePairs : List (String × String) :=
  [("DRAFT", "REVIEW"), ("DRAFT", "VALIDATION_FAILED"),
   ("REVIEW", "APPROVED"), ("REVIEW", "REJECTED"),
   ("APPROVED", "SUBMITTED"), ("REJECTED", "DRAFT"),
   ("VALIDATION_FAILED", "DRAFT")]

/-! ## Spec-worded comparison definitions -/

/-- The structuring factor as claim C5 words it: the fraction of
transactions below rule A's sub-threshold cutoff 100000, times 30, capped
at 30, zero without transactions. Written from the claim for comparison
with the source's `structuringScore`. -/
def structuringScoreClaimed (txns : List Txn) : ℚ :=
  if txns.isEmpty then 0
  else
    min 30 ((((txns.filter (fun t => t.amount.getD 0 < 100000)).length : ℚ) / txns.length) * 30)

/-- The distinct non-null counterparty count as claim C6 words it. -/
def uniqueCounterpartiesClaimed (txns : List Txn) : ℕ :=
  (txns.filterMap Txn.counterparty).toFinset.card

/-! ## Concrete example inputs -/

/-- A small sub-threshold transaction (no direction, no counterparty, no
country, no timestamp). -/
def txnSmall : Txn :=
  { amount := some 5000, direction := none, counterparty := none, country := none,
    timestamp := none }

/-- A decision dataset with exactly 19 sub-threshold transactions in a
10-day window. -/
def ds19in10 : DecisionData :=
  { customer := .dict .nil
    transactions := List.replicate 19 txnSmall
    start_ts := some 0
    end_ts := some 864000
    period_days := 10
    total_amount := 95000
    unique_counterparties := 1
    risk_rating := "medium" }

/-- A decision dataset with 20 sub-threshold transactions in an 11-day
window. -/
def ds20in11 : DecisionData :=
  { customer := .dict .nil
    transactions := List.replicate 20 txnSmall
    start_ts := some 0
    end_ts := some 950400
    period_days := 11
    total_amount := 100000
    unique_counterparties := 1
    risk_rating := "medium" }

/-- An inbound transaction stamped at hour two. -/
def txnInLate : Txn :=
  { amount := some 1000, direction := some "in", counterparty := none, country := none,
    timestamp := some 7200 }

/-- An outbound transaction stamped at hour zero (before the inbound). -/
def txnOutEarly : Txn :=
  { amount := some 1000, direction := some "out", counterparty := none, country := none,
    timestamp := some 0 }

/-- A decision dataset whose only outbound precedes its only inbound. -/
def dsOutboundFirst : DecisionData :=
  { customer := .dict .nil
    transactions := [txnInLate, txnOutEarly]
    start_ts := some 0
    end_ts := some 7200
    period_days := 1 / 12
    total_amount := 2000
    unique_counterparties := 1
    risk_rating := "medium" }

/-- A transaction of amount 50000: below rule A's 100000 cutoff, not below
the risk scorer's 10000 cutoff. -/
def txnMid : Txn :=
  { amount := some 50000, direction := none, counterparty := none, country := none,
    timestamp := none }

/-- An alert whose single transaction has no counterparty. -/
def alertNoCounterparty : Alert :=
  { customer := .dict .nil
    transactions :=
      [{ amount := some 100, direction := none, counterparty := none, country := none,
         timestamp := none }]
    risk_rating := none }

/-- The end-to-end scenario alert of claim C2: 25 transactions of amount
5000 each, every timestamp at instant 0 (a degenerate 5-day window), no
counterparty, no country, no direction, and a customer profile with no
PEP flags. -/
def alert25 : Alert :=
  { customer := .dict .nil
    transactions :=
      List.replicate 25
        { amount := some 5000, direction := none, counterparty := some "C1", country := none,
          timestamp := some 0 }
    risk_rating := none }

/-- A formatted narrative with no citations (guard boundary input). -/
def emptyCitationsFormatted : Formatted :=
  { sections := []
    risk_score := 0
    risk_level := "LOW"
    confidence_level := 0
    evidence_citations := []
    contributing_factors := [] }

/-- A formatted narrative citing AML-001 only. -/
def amlCitedFormatted : Formatted :=
  { sections := []
    risk_score := 0
    risk_level := "LOW"
    confidence_level := 0
    evidence_citations := ["AML-001"]
    contributing_factors := [] }

/-- An evidence block for AML-001 with no evidence text. -/
def amlExampleBlock : EvidenceBlock :=
  { rule_id := "AML-001"
    rule_name := "Structuring — Sub-Threshold Aggregation"
    confidence_score := 82 / 100
    evidence := []
    rule_version := RULE_VERSION }

/-- A case sitting in REVIEW at version one with an empty history. -/
def reviewCaseExample : CaseState :=
  { status := "REVIEW"
    version := some 1
    review_history := []
    draft_narrative := none
    final_narrative := none
    analyst_comment := none
    analyst_role := none }

/-- A case sitting in REJECTED at version one. -/
def rejectedCaseExample : CaseState :=
  { status := "REJECTED"
    version := some 1
    review_history := []
    draft_narrative := none
    final_narrative := none
    analyst_comment := none
    analyst_role := none }

/-- A case sitting in DRAFT at version one. -/
def draftCaseExample : CaseState :=
  { status := "DRAFT"
    version := some 1
    review_history := []
    draft_narrative := none
    final_narrative := none
    analyst_comment := none
    analyst_role := none }

/-- An empty review payload (every field defaulted). -/
def emptyPayload : ReviewPayload :=
  { user := none, comment := none, role := none, narrative := none }

/-! ## Helper lemmas -/

theorem pyMax_eq_none_iff (l : List ℚ) : pyMax l = none ↔ l = [] := by
  cases l <;> simp [pyMax]

theorem pyMin_eq_none_iff (l : List ℚ) : pyMin l = none ↔ l = [] := by
  cases l <;> simp [pyMin]

theorem pyMax_spec (l : List ℚ) (q : ℚ) (h : pyMax l = some q) :
    q ∈ l ∧ ∀ x ∈ l, x ≤ q := by
  induction l generalizing q with
  | nil => simp [pyMax] at h
  | cons a t ih =>
    simp only [pyMax] at h
    rcases ht : pyMax t with _ | m
    · rw [ht] at h
      rw [pyMax_eq_none_iff] at ht
      subst ht
      simp at h
      simp [h]
    · rw [ht] at h
      obtain ⟨hm, hub⟩ := ih m ht
      have hq : q = max a m := by simpa using h.symm
      subst hq
      constructor
      · rcases max_choice a m with he | he <;> rw [he]
        · exact List.mem_cons_self _ _
        · exact List.mem_cons_of_mem _ hm
      · intro x hx
        rcases List.mem_cons.mp hx with h1 | h1
        · rw [h1]; exact le_max_left a m
        · exact (hub x h1).trans (le_max_right a m)

theorem pyMin_spec (l : List ℚ) (q : ℚ) (h : pyMin l = some q) :
    q ∈ l ∧ ∀ x ∈ l, q ≤ x := by
  induction l generalizing q with
  | nil => simp [pyMin] at h
  | cons a t ih =>
    simp only [pyMin] at h
    rcases ht : pyMin t with _ | m
    · rw [ht] at h
      rw [pyMin_eq_none_iff] at ht
      subst ht
      simp at h
      simp [h]
    · rw [ht] at h
      obtain ⟨hm, hlb⟩ := ih m ht
      have hq : q = min a m := by simpa using h.symm
      subst hq
      constructor
      · rcases min_choice a m with he | he <;> rw [he]
        · exact List.mem_cons_self _ _
        · exact List.mem_cons_of_mem _ hm
      · intro x hx
        rcases List.mem_cons.mp hx with h1 | h1
        · rw [h1]; exact min_le_left a m
        · exact (min_le_right a m).trans (hlb x h1)

theorem length_filterMap_of_isSome {α β : Type} (f : α → Option β) (l : List α)
    (h : ∀ x ∈ l, (f x).isSome) : (l.filterMap f).length = l.length := by
  induction l with
  | nil => simp
  | cons a t ih =>
    have ha := h a (List.mem_cons_self _ _)
    rcases hfa : f a with _ | b
    · rw [hfa] at ha; simp at ha
    · simp [List.filterMap_cons, hfa, ih fun x hx => h x (List.mem_cons_of_mem _ hx)]

theorem dropWhile_head_or_nil {α : Type} (p : α → Bool) (l : List α) :
    l.dropWhile p = [] ∨ ∃ c t, l.dropWhile p = c :: t ∧ p c = false := by
  induction l with
  | nil => exact Or.inl rfl
  | cons a t ih =>
    by_cases hpa : p a = true
    · rw [List.dropWhile_cons_of_pos hpa]; exact ih
    · rw [List.dropWhile_cons_of_neg hpa]
      exact Or.inr ⟨a, t, rfl, Bool.eq_false_iff.mpr hpa⟩

theorem stripList_head_or_nil (l : List Char) :
    Py.stripList l = [] ∨
      ∃ c t, Py.stripList l = c :: t ∧ c.isWhitespace = false := by
  unfold Py.stripList
  rcases dropWhile_head_or_nil Char.isWhitespace l with h | ⟨c, t, h, hc⟩
  · rw [h]; exact Or.inl rfl
  · rw [h]
    right
    have hrev : (c :: t).reverse = t.reverse ++ [c] := by simp
    rw [hrev, List.dropWhile_append]
    by_cases he : (t.reverse.dropWhile Char.isWhitespace).isEmpty = true
    · rw [if_pos he]
      refine ⟨c, [], ?_, hc⟩
      simp [List.dropWhile_cons, hc]
    · rw [if_neg he]
      refine ⟨c, (t.reverse.dropWhile Char.isWhitespace).reverse, ?_, hc⟩
      simp
  
theorem stripList_cons_ne_nil (c : Char) (l : List Char) (hc : c.isWhitespace = false) :
    Py.stripList (c :: l) ≠ [] := by
  unfold Py.stripList
  rw [show (c :: l).dropWhile Char.isWhitespace = c :: l by simp [List.dropWhile_cons, hc]]
  have hrev : (c :: l).reverse = l.reverse ++ [c] := by simp
  rw [hrev, List.dropWhile_append]
  by_cases he : (l.reverse.dropWhile Char.isWhitespace).isEmpty = true
  · rw [if_pos he]
    simp [List.dropWhile_cons, hc]
  · rw [if_neg he]
    simp

theorem strip_as_paragraph_ne_empty (s : String) : Py.strip (as_paragraph s) ≠ "" := by
  unfold as_paragraph
  by_cases h : Py.strip s = ""
  · rw [if_pos h]
    decide
  · rw [if_neg h]
    have hdata : (Py.strip s).data = Py.stripList s.data := rfl
    rcases stripList_head_or_nil s.data with h0 | ⟨c, t, h0, hc⟩
    · exact absurd (by apply congrArg String.mk; rw [← hdata] at h0 ⊢; exact h0) h
    · intro hcontra
      have hrep : Py.replaceChar '\n' [' '] (Py.strip s).data =
          c :: Py.replaceChar '\n' [' '] t := by
        rw [hdata, h0]
        have hcn : ¬ c = '\n' := by
          intro heq
          rw [heq] at hc
          simp [Char.isWhitespace] at hc
        simp [Py.replaceChar, if_neg hcn]
      have : Py.strip (⟨Py.replaceChar '\n' [' '] (Py.strip s).data⟩ : String) ≠ "" := by
        rw [hrep]
        intro habs
        have habs' : Py.stripList (c :: Py.replaceChar '\n' [' '] t) = [] :=
          congrArg String.data habs
        exact stripList_cons_ne_nil c _ hc habs'
      exact this hcontra

theorem structuringScore_le_30 (txns : List Txn) : structuringScore txns ≤ 30 := by
  unfold structuringScore
  by_cases h : txns.isEmpty
  · rw [if_pos h]; norm_num
  · rw [if_neg h]; exact min_le_left _ _

theorem derive_level_eq_low (x : ℚ) (h : x < 30) : derive_level x = "LOW" := by
  unfold derive_level
  rw [show RISK_LEVEL_THRESHOLDS "CRITICAL" = 85 by decide,
      show RISK_LEVEL_THRESHOLDS "HIGH" = 60 by decide,
      show RISK_LEVEL_THRESHOLDS "MEDIUM" = 30 by decide]
  rw [if_neg (by intro hge; exact absurd h (by simp only [not_lt]; linarith)),
      if_neg (by intro hge; exact absurd h (by simp only [not_lt]; linarith)),
      if_neg (by intro hge; exact absurd h (by simp only [not_lt]; linarith))]

theorem ruleA_rule_id (d : DecisionData) (b : EvidenceBlock) (h : ruleA d = some b) :
    b.rule_id = "AML-001" := by
  simp only [ruleA] at h
  split at h
  · exact (Option.some_injective _ h).symm ▸ rfl
  · exact absurd h (by simp)

theorem ruleB_rule_id (d : DecisionData) (b : EvidenceBlock) (h : ruleB d = some b) :
    b.rule_id = "AML-017" := by
  simp only [ruleB] at h
  split at h
  · split at h
    · exact (Option.some_injective _ h).symm ▸ rfl
    · exact absurd h (by simp)
  · exact absurd h (by simp)

theorem ruleC_rule_id (d : DecisionData) (b : EvidenceBlock) (h : ruleC d = some b) :
    b.rule_id = "AML-021" := by
  simp only [ruleC] at h
  split at h
  · exact (Option.some_injective _ h).symm ▸ rfl
  · exact absurd h (by simp)

theorem ruleA_isSome_iff (d : DecisionData) :
    (ruleA d).isSome = true ↔
      20 ≤ (d.transactions.filter (fun t => t.amount.getD 0 < 100000)).length ∧
        d.period_days ≤ 10 := by
  simp only [ruleA]
  split
  · simp only [Option.isSome_some, true_iff]
    next hcond => exact ⟨hcond.1, hcond.2⟩
  · simp only [Option.isSome_none, Bool.false_eq_true, false_iff]
    next hcond => exact fun hc => hcond ⟨hc.1, hc.2⟩

theorem evaluate_rules_fst (d : DecisionData) :
    (evaluate_rules d).1 = [ruleA d, ruleB d, ruleC d].filterMap id := rfl

theorem assess_risk_level_low (d : DecisionData) (blocks : List EvidenceBlock)
    (hjur : (blocks.filter fun b => Py.containsSubStr "AML-021" b.rule_id) = [])
    (hpep : (d.customer.getD "pep_flags" (.list .nil)).falsy = true) :
    (assess_risk d blocks).risk_level = "LOW" := by
  unfold assess_risk
  simp only [hjur, hpep, List.map_nil, List.toFinset_nil, ne_eq, not_true_eq_false,
    if_false, if_true]
  have hv : min (40 : ℚ) ((d.transactions.length : ℚ) / max d.period_days 1 * 4) ≤ 40 :=
    min_le_left _ _
  have hs : structuringScore d.transactions ≤ 30 := structuringScore_le_30 _
  have hh : (10 : ℚ) + min 30 ((d.unique_counterparties : ℚ) * 2 + d.total_amount / 1000000) ≤ 40 := by
    have := min_le_left (30 : ℚ) ((d.unique_counterparties : ℚ) * 2 + d.total_amount / 1000000)
    linarith
  set v := min (40 : ℚ) ((d.transactions.length : ℚ) / max d.period_days 1 * 4) with hvdef
  set s := structuringScore d.transactions with hsdef
  set hist := (10 : ℚ) + min 30 ((d.unique_counterparties : ℚ) * 2 + d.total_amount / 1000000)
    with hhdef
  have hw : (v * 22 + s * 20 + 5 * 18 + 5 * 20 + hist * 20) / 100 < 30 := by
    rw [div_lt_iff₀ (by norm_num : (0 : ℚ) < 100)]
    linarith
  have hscore :
      normalize_score ((v * 22 + s * 20 + 5 * 18 + 5 * 20 + hist * 20) / 100) < 30 := by
    unfold normalize_score
    exact max_lt (by norm_num) (lt_of_le_of_lt (min_le_right _ _) hw)
  exact derive_level_eq_low _ hscore

theorem lookup_map_pair (g : String → String) (l : List String) (k : String) (hk : k ∈ l) :
    List.lookup k (l.map fun s => (s, g s)) = some (g k) := by
  induction l with
  | nil => simp at hk
  | cons a t ih =>
    by_cases h : k = a
    · subst h
      simp [List.lookup]
    · have hne : (k == a) = false := by simpa using h
      simp only [List.map_cons, List.lookup, hne]
      have hkt : k ∈ t := by
        rcases List.mem_cons.mp hk with h1 | h1
        · exact absurd h1 h
        · exact h1
      exact ih hkt

theorem validate_v2_passed_of_format (llm_sections : List (String × String)) (rs : ℚ)
    (rl : String) (cl : ℚ) (cits : List String) (cf : List (String × ℚ))
    (trace : List TraceEntry) (hcits : cits ≠ []) :
    (validate_v2 (format_sar_narrative llm_sections rs rl cl cits cf) trace).passed = true := by
  have herr : validate_v2_errors (format_sar_narrative llm_sections rs rl cl cits cf) = [] := by
    unfold validate_v2_errors
    rw [List.filterMap_eq_nil_iff.mpr, List.nil_append]
    · rw [if_neg]
      simp only [format_sar_narrative, List.isEmpty_eq_true]
      exact hcits
    · intro sec hsec
      have hmem : sec ∈ SECTION_ORDER := hsec
      unfold sectionError
      rw [show (format_sar_narrative llm_sections rs rl cl cits cf).sections =
            SECTION_ORDER.map fun s => (s, formattedSectionValue llm_sections s) from rfl]
      rw [lookup_map_pair _ _ _ hmem]
      dsimp only
      rw [if_neg
        (show ¬ Py.strip (formattedSectionValue llm_sections sec) = "" from
          strip_as_paragraph_ne_empty _)]
  unfold validate_v2
  simp [herr]

theorem map_counterparty_toFinset (l : List Txn) :
    (l.map Txn.counterparty).toFinset =
      if l.any (fun t => t.counterparty == none) then
        insert none ((l.filterMap Txn.counterparty).toFinset.image some)
      else (l.filterMap Txn.counterparty).toFinset.image some := by
  induction l with
  | nil => simp
  | cons t l ih =>
    rcases hc : t.counterparty with _ | s
    · simp only [List.map_cons, List.any_cons, hc, List.filterMap_cons, List.toFinset_cons, ih]
      by_cases ha : l.any (fun t => t.counterparty == none) = true
      · simp [ha, Finset.insert_idem]
      · simp [ha]
    · simp only [List.map_cons, List.any_cons, hc, List.filterMap_cons, List.toFinset_cons, ih]
      by_cases ha : l.any (fun t => t.counterparty == none) = true
      · simp only [ha, Bool.or_true, if_true, Finset.image_insert]
        rw [Finset.Insert.comm]
      · simp [ha, Finset.image_insert]

theorem unique_counterparties_decomp (l : List Txn) :
    (l.map Txn.counterparty).toFinset.card =
      (l.filterMap Txn.counterparty).toFinset.card +
        (if l.any (fun t => t.counterparty == none) then 1 else 0) := by
  rw [map_counterparty_toFinset]
  by_cases h : l.any (fun t => t.counterparty == none) = true
  · rw [if_pos h, if_pos h,
      Finset.card_insert_of_not_mem (by simp),
      Finset.card_image_of_injective _ (Option.some_injective _)]
  · rw [if_neg h, if_neg h,
      Finset.card_image_of_injective _ (Option.some_injective _), Nat.add_zero]

theorem reverse_take_two_eq_drop (l : List Char) (n : ℕ) :
    (l.reverse.take n).reverse = l.drop (l.length - n) := by
  rw [← List.rtake_eq_reverse_take_reverse]
  rfl

/-! ## Claims -/

/-- C1: the hallucination guard rejects exactly when the formatted
narrative's citation set is empty or is not a subset of the rule ids of the
evidence blocks triggered in the same run; a pipeline run raises its
blocking error (no usable case is persisted) exactly when the guard
rejects; every narrative with empty citations — including the
empty-triggered/empty-citations boundary — is rejected; and every
narrative whose citations form a non-empty subset of the triggered ids is
accepted. -/
theorem C1_hallucination_guard_iff :
    (∀ (f : Formatted) (blocks : List EvidenceBlock),
        hallucination_guard_rejects f blocks = true ↔
          f.evidence_citations.toFinset = ∅ ∨
            ¬ f.evidence_citations.toFinset ⊆ (blocks.map EvidenceBlock.rule_id).toFinset) ∧
    (∀ alert : Alert,
        (∃ e, run_pipeline alert = .error e) ↔
          hallucination_guard_rejects (pipelineFormatted alert) (pipelineBlocks alert) = true) ∧
    (∀ (f : Formatted) (blocks : List EvidenceBlock),
        f.evidence_citations = [] → hallucination_guard_rejects f blocks = true) ∧
    (∀ (f : Formatted) (blocks : List EvidenceBlock),
        f.evidence_citations ≠ [] →
          f.evidence_citations.toFinset ⊆ (blocks.map EvidenceBlock.rule_id).toFinset →
          hallucination_guard_rejects f blocks = false) := by
  refine ⟨?_, ?_, ?_, ?_⟩
  · intro f blocks
    unfold hallucination_guard_rejects
    simp [Bool.or_eq_true, decide_eq_true_eq]
  · intro alert
    unfold run_pipeline
    by_cases h : hallucination_guard_rejects (pipelineFormatted alert) (pipelineBlocks alert) = true
    · simp [h]
    · simp [h]
  · intro f blocks h
    unfold hallucination_guard_rejects
    simp [h]
  · intro f blocks h1 h2
    unfold hallucination_guard_rejects
    simp [List.toFinset_eq_empty_iff, h1, h2]

/-- C3: rule A (AML-001) appears among a run's evidence blocks exactly when
the number of transactions with amount strictly below 100000 is at least 20
and the window is at most 10 days; in particular 19 qualifying
transactions in a 10-day window do not trigger it and 20 qualifying
transactions in an 11-day window do not trigger it. -/
theorem C3_ruleA_iff :
    (∀ d : DecisionData,
        ("AML-001" ∈ (evaluate_rules d).1.map EvidenceBlock.rule_id ↔
          20 ≤ (d.transactions.filter (fun t => t.amount.getD 0 < 100000)).length ∧
            d.period_days ≤ 10)) ∧
    ruleA ds19in10 = none ∧ ruleA ds20in11 = none ∧
    (evaluate_rules ds19in10).1 = [] ∧ (evaluate_rules ds20in11).1 = [] := by
  refine ⟨?_, by decide, by decide, by decide, by decide⟩
  intro d
  rw [evaluate_rules_fst]
  constructor
  · intro hmem
    rcases List.mem_map.mp hmem with ⟨b, hb, hid⟩
    rcases List.mem_filterMap.mp hb with ⟨ob, hob, hsome⟩
    have hob' : ob = some b := hsome
    rcases List.mem_cons.mp hob with h1 | hrest
    · rw [h1] at hob'
      exact (ruleA_isSome_iff d).mp (by rw [hob']; rfl)
    · rcases List.mem_cons.mp hrest with h2 | hrest2
      · rw [h2] at hob'
        exact absurd hid (by rw [ruleB_rule_id d b hob']; decide)
      · rcases List.mem_cons.mp hrest2 with h3 | h4
        · rw [h3] at hob'
          exact absurd hid (by rw [ruleC_rule_id d b hob']; decide)
        · simp at h4
  · intro hcond
    have hAs : (ruleA d).isSome = true := (ruleA_isSome_iff d).mpr hcond
    rcases Option.isSome_iff_exists.mp hAs with ⟨b, hb⟩
    refine List.mem_map.mpr ⟨b, ?_, ruleA_rule_id d b hb⟩
    exact List.mem_filterMap.mpr ⟨some b, by simp [hb], rfl⟩

/-- C4: rule B (AML-017) emits its evidence block exactly when both an
inbound and an outbound transaction with resolvable timestamps exist and
the delta in hours from the latest inbound timestamp to the earliest
outbound timestamp lies in [0, 6]; a negative delta (earliest outbound
preceding latest inbound) never triggers. -/
theorem C4_ruleB_iff :
    (∀ d : DecisionData,
        ((ruleB d).isSome = true ↔
          ∃ last_in first_out : ℚ,
            pyMax ((d.transactions.filter isInbound).filterMap Txn.timestamp) = some last_in ∧
            pyMin ((d.transactions.filter isOutbound).filterMap Txn.timestamp) = some first_out ∧
            0 ≤ (first_out - last_in) / 3600 ∧ (first_out - last_in) / 3600 ≤ 6)) ∧
    (∀ (d : DecisionData) (last_in first_out : ℚ),
        pyMax ((d.transactions.filter isInbound).filterMap Txn.timestamp) = some last_in →
        pyMin ((d.transactions.filter isOutbound).filterMap Txn.timestamp) = some first_out →
        (first_out - last_in) / 3600 < 0 → ruleB d = none) := by
  constructor
  · intro d
    simp only [ruleB]
    rcases hmax : pyMax ((d.transactions.filter isInbound).filterMap Txn.timestamp) with _ | li
    · simp [hmax]
    · rcases hmin : pyMin ((d.transactions.filter isOutbound).filterMap Txn.timestamp) with _ | fo
      · simp [hmin]
      · dsimp only
        split
        · next hcond =>
          simp only [Option.isSome_some, true_iff]
          exact ⟨li, fo, rfl, rfl, hcond.1, hcond.2⟩
        · next hcond =>
          simp only [Option.isSome_none, Bool.false_eq_true, false_iff]
          rintro ⟨li', fo', hli, hfo, h0, h6⟩
          rw [Option.some_inj] at hli hfo
          exact hcond ⟨hli ▸ hfo ▸ h0, hli ▸ hfo ▸ h6⟩
  · intro d li fo h1 h2 hneg
    simp only [ruleB, h1, h2]
    rw [if_neg]
    rintro ⟨h0, -⟩
    exact absurd hneg (not_lt.mpr h0)

/-- C5 counterexample: on a dataset with a single transaction of 50000 the
risk scorer's structuring factor is 0, while the claim's formula — the
fraction below rule A's 100000 cutoff times 30 capped at 30 — yields 30:
the two cutoffs differ. -/
theorem C5_cutoff_counterexample :
    structuringScore [txnMid] = 0 ∧ structuringScoreClaimed [txnMid] = 30 ∧
      structuringScore [txnMid] ≠ structuringScoreClaimed [txnMid] := by
  have h1 : structuringScore [txnMid] = 0 := by
    norm_num [structuringScore, txnMid, List.filter]
  have h2 : structuringScoreClaimed [txnMid] = 30 := by
    norm_num [structuringScoreClaimed, txnMid, List.filter]
  exact ⟨h1, h2, by rw [h1, h2]; norm_num⟩

/-- C5 (amended): the structuring factor equals the fraction of
transactions with amount strictly below the risk engine's own 10000
cutoff (not rule A's 100000 cutoff), times 30, capped at 30; it is zero
without transactions; and the assessment stores exactly this factor
(rounded to two decimals) as `structuring_pattern`. -/
theorem C5_structuring_factor :
    (∀ txns : List Txn, txns ≠ [] →
        structuringScore txns =
          min 30 ((((txns.filter (fun t => t.amount.getD 0 < 10000)).length : ℚ) /
              txns.length) * 30)) ∧
    structuringScore [] = 0 ∧
    (∀ (d : DecisionData) (blocks : List EvidenceBlock),
        (assess_risk d blocks).contributing_factors.lookup "structuring_pattern" =
          some (pyRound2 (structuringScore d.transactions))) := by
  refine ⟨?_, rfl, ?_⟩
  · intro txns h
    unfold structuringScore
    rw [if_neg (by simpa [List.isEmpty_iff] using h)]
  · intro d blocks
    unfold assess_risk
    simp [List.lookup]

/-- C6 counterexample: an alert whose single transaction has no
counterparty yields `unique_counterparties` 1, while the distinct
non-null count of the claim is 0: null counterparties do contribute. -/
theorem C6_null_counterparty_counterexample :
    (build_decision_dataset alertNoCounterparty).unique_counterparties = 1 ∧
      uniqueCounterpartiesClaimed alertNoCounterparty.transactions = 0 ∧
      (build_decision_dataset alertNoCounterparty).unique_counterparties ≠
        uniqueCounterpartiesClaimed alertNoCounterparty.transactions := by
  refine ⟨by decide, by decide, by decide⟩

/-- C6 (amended): `unique_counterparties` equals the number of distinct
non-null counterparty identifiers plus one more when any transaction's
counterparty is absent — the builder counts the null bucket too. -/
theorem C6_unique_counterparties :
    ∀ a : Alert,
      (build_decision_dataset a).unique_counterparties =
        uniqueCounterpartiesClaimed a.transactions +
          (if a.transactions.any (fun t => t.counterparty == none) then 1 else 0) := by
  intro a
  unfold build_decision_dataset uniqueCounterpartiesClaimed
  exact unique_counterparties_decomp a.transactions

/-- C7 counterexample: the integer zero under the sensitive key `dob` is
neither absent nor empty and its string form has length at most 4, yet the
masker returns it unchanged rather than replacing it with the marker:
Python truthiness, not emptiness, gates the mask. -/
theorem C7_falsy_zero_counterexample :
    maskPii (.dict (.cons "dob" (.int 0) .nil)) = .dict (.cons "dob" (.int 0) .nil) ∧
      (Val.int 0).pyStr = "0" ∧
      Val.int 0 ≠ Val.str "****" := by
  refine ⟨rfl, rfl, fun h => Val.noConfusion h⟩

theorem maskPiiDict_keys : ∀ kvs : ValDict, (maskPiiDict kvs).keys = kvs.keys
  | .nil => rfl
  | .cons k v t => by
    by_cases h : PII_FIELDS.contains k
    · simp only [maskPiiDict, if_pos h, ValDict.keys, maskPiiDict_keys t]
    · simp only [maskPiiDict, if_neg h, ValDict.keys, maskPiiDict_keys t]

theorem maskPiiList_length : ∀ xs : ValList, (maskPiiList xs).length = xs.length
  | .nil => rfl
  | .cons v t => by simp only [maskPiiList, ValList.length, maskPiiList_length t]

theorem maskPiiDict_lookup_sensitive :
    ∀ (kvs : ValDict) (k : String), PII_FIELDS.contains k = true →
      (maskPiiDict kvs).lookup k = (kvs.lookup k).map maskValue
  | .nil, _, _ => rfl
  | .cons k' v t, k, hk => by
    by_cases h : PII_FIELDS.contains k'
    · simp only [maskPiiDict, if_pos h, ValDict.lookup]
      by_cases hkk : k' = k
      · rw [if_pos hkk, if_pos hkk]; rfl
      · rw [if_neg hkk, if_neg hkk]
        exact maskPiiDict_lookup_sensitive t k hk
    · have hkk : ¬ k' = k := fun he => by rw [he] at h; exact h hk
      simp only [maskPiiDict, if_neg h, ValDict.lookup, if_neg hkk]
      exact maskPiiDict_lookup_sensitive t k hk

theorem maskPiiDict_lookup_plain :
    ∀ (kvs : ValDict) (k : String), PII_FIELDS.contains k = false →
      (maskPiiDict kvs).lookup k = (kvs.lookup k).map maskPii
  | .nil, _, _ => rfl
  | .cons k' v t, k, hk => by
    by_cases h : PII_FIELDS.contains k'
    · have hkk : ¬ k' = k := fun he => by rw [he] at h; rw [h] at hk; cases hk
      simp only [maskPiiDict, if_pos h, ValDict.lookup, if_neg hkk]
      exact maskPiiDict_lookup_plain t k hk
    · simp only [maskPiiDict, if_neg h, ValDict.lookup]
      by_cases hkk : k' = k
      · rw [if_pos hkk, if_pos hkk]; rfl
      · rw [if_neg hkk, if_neg hkk]
        exact maskPiiDict_lookup_plain t k hk

/-- C7 (amended): the masker is total and structure preserving (dict keys
and list lengths are kept, scalars outside sensitive keys pass through,
non-sensitive entries recurse, sensitive entries are rewritten by
`maskValue`), and `maskValue` keeps every Python-falsy value (null, false,
zero, empty string, empty containers) unchanged, replaces any other value
of string length at most 4 by the marker, and otherwise keeps the first
two and last two characters around the marker. -/
theorem C7_mask_policy :
    (∀ v : Val, v.falsy = true → maskValue v = v) ∧
    (∀ v : Val, v.falsy = false → (v.pyStr).data.length ≤ 4 → maskValue v = .str "****") ∧
    (∀ v : Val, v.falsy = false → 4 < (v.pyStr).data.length →
        maskValue v =
          .str ⟨(v.pyStr).data.take 2 ++ "****".data ++
              (v.pyStr).data.drop ((v.pyStr).data.length - 2)⟩) ∧
    (∀ kvs : ValDict, (maskPiiDict kvs).keys = kvs.keys) ∧
    (∀ xs : ValList, (maskPiiList xs).length = xs.length) ∧
    (∀ (kvs : ValDict) (k : String), PII_FIELDS.contains k = true →
        (maskPiiDict kvs).lookup k = (kvs.lookup k).map maskValue) ∧
    (∀ (kvs : ValDict) (k : String), PII_FIELDS.contains k = false →
        (maskPiiDict kvs).lookup k = (kvs.lookup k).map maskPii) ∧
    (∀ s, maskPii (.str s) = .str s) ∧
    maskPii .null = .null ∧
    (∀ b, maskPii (.bool b) = .bool b) ∧
    (∀ n, maskPii (.int n) = .int n) ∧
    (∀ xs, maskPii (.list xs) = .list (maskPiiList xs)) ∧
    (∀ kvs, maskPii (.dict kvs) = .dict (maskPiiDict kvs)) := by
  refine ⟨?_, ?_, ?_, maskPiiDict_keys, maskPiiList_length,
    maskPiiDict_lookup_sensitive, maskPiiDict_lookup_plain,
    fun s => rfl, rfl, fun b => rfl, fun n => rfl, fun xs => rfl, fun kvs => rfl⟩
  · intro v h
    unfold maskValue
    rw [if_pos h]
  · intro v hf hlen
    unfold maskValue
    rw [if_neg (by simp [hf]), if_pos hlen]
  · intro v hf hlen
    unfold maskValue
    rw [if_neg (by simp [hf]), if_neg (not_le.mpr hlen)]
    have hdrop : ((v.pyStr).data.reverse.take 2).reverse =
        (v.pyStr).data.drop ((v.pyStr).data.length - 2) :=
      reverse_take_two_eq_drop (v.pyStr).data 2
    rw [hdrop]

/-- C8: every externally requested review transition whose (current state,
target) pair is outside the lifecycle table is rejected with the invalid
transition error and leaves the case record (its status, version and
review history included) unchanged. -/
theorem C8_illegal_transition_rejected :
    ∀ (act : ReviewAction) (case_obj : CaseState) (payload : ReviewPayload),
      (case_obj.status, actionTarget act) ∉ transitionTablePairs →
      applyAction act case_obj payload = (case_obj, .error "Invalid transition") := by
  intro act case_obj payload hpair
  have hct : can_transition case_obj.status (actionTarget act) = false := by
    by_contra hc
    apply hpair
    have hc' : can_transition case_obj.status (actionTarget act) = true := by
      revert hc
      cases can_transition case_obj.status (actionTarget act) <;> simp
    unfold can_transition TRANSITIONS at hc'
    unfold transitionTablePairs
    by_cases h1 : case_obj.status = "DRAFT"
    · rw [if_pos h1] at hc'
      rcases (by simpa using hc' : actionTarget act = "REVIEW" ∨
          actionTarget act = "VALIDATION_FAILED") with h | h <;> simp [h1, h]
    · rw [if_neg h1] at hc'
      by_cases h2 : case_obj.status = "REVIEW"
      · rw [if_pos h2] at hc'
        rcases (by simpa using hc' : actionTarget act = "APPROVED" ∨
            actionTarget act = "REJECTED") with h | h <;> simp [h2, h]
      · rw [if_neg h2] at hc'
        by_cases h3 : case_obj.status = "APPROVED"
        · rw [if_pos h3] at hc'
          have h : actionTarget act = "SUBMITTED" := by simpa using hc'
          simp [h3, h]
        · rw [if_neg h3] at hc'
          by_cases h4 : case_obj.status = "REJECTED"
          · rw [if_pos h4] at hc'
            have h : actionTarget act = "DRAFT" := by simpa using hc'
            simp [h4, h]
          · rw [if_neg h4] at hc'
            by_cases h5 : case_obj.status = "VALIDATION_FAILED"
            · rw [if_pos h5] at hc'
              have h : actionTarget act = "DRAFT" := by simpa using hc'
              simp [h5, h]
            · rw [if_neg h5] at hc'
              simp at hc'
  cases act <;>
    simp only [applyAction, submit_case, approve_case, reject_case, finalize_case,
      actionTarget] at hct ⊢ <;>
    rw [if_pos (by rw [hct]; rfl)]

/-- C8 witness: a direct REVIEW to SUBMITTED request and a REJECTED to
REVIEW request are both rejected without touching the case. -/
theorem C8_illegal_transition_witness :
    finalize_case reviewCaseExample emptyPayload =
        (reviewCaseExample, .error "Invalid transition") ∧
      submit_case rejectedCaseExample emptyPayload =
        (rejectedCaseExample, .error "Invalid transition") :=
  ⟨C8_illegal_transition_rejected .finalize reviewCaseExample emptyPayload (by decide),
    C8_illegal_transition_rejected .submit rejectedCaseExample emptyPayload (by decide)⟩

/-- C9 counterexample: approving a case in REVIEW succeeds and appends one
history entry, yet leaves `version` at one — the reviewer-driven approve
transition does not increment the version (only submit does). -/
theorem C9_version_counterexample :
    (approve_case reviewCaseExample emptyPayload).2 = .ok "APPROVED" ∧
      (approve_case reviewCaseExample emptyPayload).1.status = "APPROVED" ∧
      (approve_case reviewCaseExample emptyPayload).1.review_history.length = 1 ∧
      (approve_case reviewCaseExample emptyPayload).1.version = some 1 ∧
      (approve_case reviewCaseExample emptyPayload).1.version ≠ some 2 := by
  refine ⟨rfl, rfl, rfl, rfl, by decide⟩

/-- C9 (amended): every successful lifecycle transition appends exactly one
`{user, action, comment}` entry to the review history, and only the
analyst submit transition (to REVIEW) increments the version by one;
approve, reject and finalize leave the version unchanged. -/
theorem C9_transition_effects :
    ∀ (act : ReviewAction) (case_obj : CaseState) (payload : ReviewPayload),
      can_transition case_obj.status (actionTarget act) = true →
      ((applyAction act case_obj payload).1.review_history =
          case_obj.review_history ++ [actionHistoryEntry act payload] ∧
        (applyAction act case_obj payload).1.version =
          (if act = .submit then some (case_obj.version.getD 1 + 1) else case_obj.version) ∧
        (applyAction act case_obj payload).2 = .ok (actionTarget act) ∧
        (applyAction act case_obj payload).1.status = actionTarget act) := by
  intro act case_obj payload hct
  cases act <;>
    simp [applyAction, submit_case, approve_case, reject_case, finalize_case,
      actionTarget, actionHistoryEntry, record_history, actionTarget] at hct ⊢ <;>
    simp [hct]

/-- C9 witness: submitting a DRAFT case appends one entry and bumps the
version to two; approving a REVIEW case appends one entry and keeps the
version at one. -/
theorem C9_transition_effects_witness :
    ((applyAction .submit draftCaseExample emptyPayload).1.review_history =
        draftCaseExample.review_history ++ [actionHistoryEntry .submit emptyPayload] ∧
      (applyAction .submit draftCaseExample emptyPayload).1.version =
        (if ReviewAction.submit = .submit then some (draftCaseExample.version.getD 1 + 1)
         else draftCaseExample.version) ∧
      (applyAction .submit draftCaseExample emptyPayload).2 = .ok (actionTarget .submit) ∧
      (applyAction .submit draftCaseExample emptyPayload).1.status = actionTarget .submit) ∧
    ((applyAction .approve reviewCaseExample emptyPayload).1.review_history =
        reviewCaseExample.review_history ++ [actionHistoryEntry .approve emptyPayload] ∧
      (applyAction .approve reviewCaseExample emptyPayload).1.version =
        (if ReviewAction.approve = .submit then some (reviewCaseExample.version.getD 1 + 1)
         else reviewCaseExample.version) ∧
      (applyAction .approve reviewCaseExample emptyPayload).2 = .ok (actionTarget .approve) ∧
      (applyAction .approve reviewCaseExample emptyPayload).1.status = actionTarget .approve) :=
  ⟨C9_transition_effects .submit draftCaseExample emptyPayload (by decide),
    C9_transition_effects .approve reviewCaseExample emptyPayload (by decide)⟩

/-- C10: the formatter's normalized key for the ninth section is
`conclusion_and_recommendation`, the deterministic fallback generator
emits `conclusion_recommendation` instead (and no entry under the literal
title), so for every evidence pack the formatted narrative's
"Conclusion & Recommendation" section is exactly the "Not provided."
placeholder — never blank, never fallback content. -/
theorem C10_conclusion_not_provided :
    sectionKey "Conclusion & Recommendation" = "conclusion_and_recommendation" ∧
    (∀ pack : EvidencePack,
        (generate_mock_narrative pack).lookup "conclusion_and_recommendation" = none ∧
        (generate_mock_narrative pack).lookup "conclusion_recommendation" =
          some "File SAR and monitor for escalation; consider enhanced due diligence." ∧
        (generate_mock_narrative pack).lookup "Conclusion & Recommendation" = none ∧
        (∀ (rs : ℚ) (rl : String) (cl : ℚ) (cits : List String) (cf : List (String × ℚ)),
            (format_sar_narrative (generate_mock_narrative pack) rs rl cl cits cf).sections.lookup
                "Conclusion & Recommendation" = some "Not provided.")) := by
  refine ⟨by decide, fun pack => ⟨rfl, rfl, rfl, fun rs rl cl cits cf => rfl⟩⟩

/-- C2 (amended): for every alert with 25 transactions of amount 5000, all
timestamps valid and inside one 5-day window, no PEP flags, no high-risk
country, and no inbound/outbound timing satisfying rule B: rule A triggers
while rules B and C do not, the pipeline completes with the case in DRAFT
carrying exactly one citation "AML-001" — but the computed risk level is
LOW, not at least MEDIUM: with jurisdiction and PEP factors at their base
value 5 the weighted score cannot reach the MEDIUM threshold of 30. -/
theorem C2_structuring_scenario :
    ∀ (a : Alert) (lo : ℚ),
      a.transactions.length = 25 →
      (∀ t ∈ a.transactions, t.amount = some 5000) →
      (∀ t ∈ a.transactions, ∃ q : ℚ, t.timestamp = some q ∧ lo ≤ q ∧ q ≤ lo + 432000) →
      (a.customer.getD "pep_flags" (.list .nil)).falsy = true →
      (∀ t ∈ a.transactions, isHighRiskTxn t = false) →
      ruleB (build_decision_dataset a) = none →
      ((ruleA (build_decision_dataset a)).isSome = true ∧
        ruleC (build_decision_dataset a) = none ∧
        (pipelineRisk a).risk_level = "LOW" ∧
        ∃ o : PipelineOutcome, run_pipeline a = .ok o ∧ o.status = "DRAFT" ∧
          o.formatted.evidence_citations = ["AML-001"]) := by
  intro a lo h25 hamt hts hpep hnoHR hrB
  have hdt : (build_decision_dataset a).transactions = a.transactions := rfl
  -- the window bounds every parsed timestamp
  have htsome : ∀ t ∈ a.transactions, (Txn.timestamp t).isSome = true := by
    intro t ht
    rcases hts t ht with ⟨q, hq, -, -⟩
    rw [hq]; rfl
  have htsslen : (a.transactions.filterMap Txn.timestamp).length = 25 := by
    rw [length_filterMap_of_isSome Txn.timestamp a.transactions htsome, h25]
  have htssne : a.transactions.filterMap Txn.timestamp ≠ [] := by
    intro h
    rw [h] at htsslen
    simp at htsslen
  have hbounds : ∀ x ∈ a.transactions.filterMap Txn.timestamp, lo ≤ x ∧ x ≤ lo + 432000 := by
    intro x hx
    rcases List.mem_filterMap.mp hx with ⟨t, ht, hxt⟩
    rcases hts t ht with ⟨q, hq, hql, hqu⟩
    rw [hq] at hxt
    have hxq : q = x := Option.some_inj.mp hxt
    rw [← hxq]
    exact ⟨hql, hqu⟩
  -- the derived window length lies in [0, 5] days
  have hperiod : 0 ≤ (build_decision_dataset a).period_days ∧
      (build_decision_dataset a).period_days ≤ 5 := by
    rcases hmx : pyMax (a.transactions.filterMap Txn.timestamp) with _ | e
    · exact absurd ((pyMax_eq_none_iff _).mp hmx) htssne
    rcases hmn : pyMin (a.transactions.filterMap Txn.timestamp) with _ | s
    · exact absurd ((pyMin_eq_none_iff _).mp hmn) htssne
    obtain ⟨heMem, heUB⟩ := pyMax_spec _ e hmx
    obtain ⟨hsMem, -⟩ := pyMin_spec _ s hmn
    have hse : s ≤ e := heUB s hsMem
    have hslo : lo ≤ s := (hbounds s hsMem).1
    have hehi : e ≤ lo + 432000 := (hbounds e heMem).2
    have hdp : (build_decision_dataset a).period_days = (e - s) / 86400 := by
      show (match pyMin (a.transactions.filterMap Txn.timestamp),
            pyMax (a.transactions.filterMap Txn.timestamp) with
          | some st, some en => (en - st) / 86400
          | _, _ => (0 : ℚ)) = (e - s) / 86400
      rw [hmn, hmx]
    rw [hdp]
    constructor
    · exact div_nonneg (by linarith) (by norm_num)
    · rw [div_le_iff₀ (by norm_num : (0 : ℚ) < 86400)]
      linarith
  -- rule A fires
  have hfilter : (build_decision_dataset a).transactions.filter
      (fun t => t.amount.getD 0 < 100000) = (build_decision_dataset a).transactions := by
    rw [List.filter_eq_self]
    intro t ht
    rw [hdt] at ht
    rw [hamt t ht]
    decide
  have hA : (ruleA (build_decision_dataset a)).isSome = true := by
    refine (ruleA_isSome_iff _).mpr ⟨?_, ?_⟩
    · rw [hfilter, hdt, h25]
      norm_num
    · exact hperiod.2.trans (by norm_num)
  obtain ⟨bA, hbA⟩ := Option.isSome_iff_exists.mp hA
  have hbAid : bA.rule_id = "AML-001" := ruleA_rule_id _ bA hbA
  -- rule C does not fire
  have hC : ruleC (build_decision_dataset a) = none := by
    unfold ruleC
    rw [show (build_decision_dataset a).transactions.filter isHighRiskTxn = [] from
      List.filter_eq_nil_iff.mpr (by intro t ht; rw [hdt] at ht; simp [hnoHR t ht])]
    simp
  -- the run's evidence set is exactly rule A's block
  have hblocks : pipelineBlocks a = [bA] := by
    show (evaluate_rules (build_decision_dataset a)).1 = [bA]
    rw [evaluate_rules_fst, hbA, hrB, hC]
    rfl
  have hcits : (pipelineBlocks a).map EvidenceBlock.rule_id = ["AML-001"] := by
    rw [hblocks, List.map_cons, List.map_nil, hbAid]
  -- the risk level is LOW
  have hjur : ((pipelineBlocks a).filter fun b => Py.containsSubStr "AML-021" b.rule_id) = [] := by
    rw [hblocks]
    have hsub : Py.containsSubStr "AML-021" bA.rule_id = false := by
      rw [hbAid]; decide
    simp [List.filter, hsub]
  have hlow : (pipelineRisk a).risk_level = "LOW" := by
    show (assess_risk (build_decision_dataset a) (pipelineBlocks a)).risk_level = "LOW"
    exact assess_risk_level_low _ _ hjur hpep
  -- the guard accepts and the case lands in DRAFT with one citation
  have hfcits : (pipelineFormatted a).evidence_citations = ["AML-001"] := hcits
  have hguardGen : ∀ (f : Formatted) (blocks : List EvidenceBlock),
      f.evidence_citations = ["AML-001"] → blocks.map EvidenceBlock.rule_id = ["AML-001"] →
      hallucination_guard_rejects f blocks = false := by
    intro f blocks h1 h2
    unfold hallucination_guard_rejects
    rw [h1, h2]
    decide
  have hguard : hallucination_guard_rejects (pipelineFormatted a) (pipelineBlocks a) = false :=
    hguardGen _ _ hfcits hcits
  have hval : (pipelineValidation a).passed = true := by
    show (validate_v2 (pipelineFormatted a)
        (build_explainability_trace (pipelineFormatted a) (pipelineBlocks a))).passed = true
    exact validate_v2_passed_of_format (generate_mock_narrative (pipelinePack a))
      (pipelineRisk a).risk_score (pipelineRisk a).risk_level
      (confidence_from_evidence (pipelineBlocks a))
      ((pipelineBlocks a).map EvidenceBlock.rule_id)
      (pipelineRisk a).contributing_factors
      (build_explainability_trace (pipelineFormatted a) (pipelineBlocks a))
      (by rw [hcits]; decide)
  have hrun : run_pipeline a =
      .ok { decision_data := pipelineDecision a
            evidence_blocks := pipelineBlocks a
            risk := pipelineRisk a
            formatted := pipelineFormatted a
            validation := pipelineValidation a
            status := if (pipelineValidation a).passed then "DRAFT" else "VALIDATION_FAILED" } := by
    unfold run_pipeline
    rw [hguard]
    rfl
  rw [if_pos hval] at hrun
  exact ⟨hA, hC, hlow, ⟨_, hrun, rfl, hfcits⟩⟩

/-- C2 witness: the concrete scenario alert (25 transactions of 5000, all
stamped inside the window, no PEP flags, no high-risk country, rule B
silent) instantiates the theorem. -/
theorem C2_structuring_scenario_witness :
    (ruleA (build_decision_dataset alert25)).isSome = true ∧
      ruleC (build_decision_dataset alert25) = none ∧
      (pipelineRisk alert25).risk_level = "LOW" ∧
      ∃ o : PipelineOutcome, run_pipeline alert25 = .ok o ∧ o.status = "DRAFT" ∧
        o.formatted.evidence_citations = ["AML-001"] :=
  C2_structuring_scenario alert25 0 (by decide) (by decide)
    (fun t ht => by
      have he := List.eq_of_mem_replicate ht
      exact ⟨0, by rw [he], le_refl 0, by norm_num⟩)
    (by decide) (by decide) (by decide)

set_option maxRecDepth 16384 in
/-- C2 counterexample: the scenario alert itself — 25 transactions of
amount 5000 inside a 5-day window, no PEP flags, no high-risk country,
rule B silent — computes risk level "LOW", which is not at least MEDIUM. -/
theorem C2_risk_level_counterexample :
    alert25.transactions.length = 25 ∧
      alert25.transactions.all (fun t => t.amount == some 5000) = true ∧
      alert25.transactions.all (fun t => t.timestamp == some 0) = true ∧
      (alert25.customer.getD "pep_flags" (.list .nil)).falsy = true ∧
      alert25.transactions.all (fun t => !isHighRiskTxn t) = true ∧
      ruleB (build_decision_dataset alert25) = none ∧
      (ruleA (build_decision_dataset alert25)).isSome = true ∧
      (pipelineRisk alert25).risk_level = "LOW" ∧
      (["MEDIUM", "HIGH", "CRITICAL"].contains (pipelineRisk alert25).risk_level) = false := by
  have hp : (build_decision_dataset alert25).period_days = 0 := by
    have h1 : pyMin (alert25.transactions.filterMap Txn.timestamp) = some 0 := by decide
    have h2 : pyMax (alert25.transactions.filterMap Txn.timestamp) = some 0 := by decide
    have hshow : (build_decision_dataset alert25).period_days =
        (match pyMin (alert25.transactions.filterMap Txn.timestamp),
            pyMax (alert25.transactions.filterMap Txn.timestamp) with
          | some st, some en => ((en : ℚ) - st) / 86400
          | _, _ => (0 : ℚ)) := rfl
    rw [hshow, h1, h2]
    norm_num
  have hA : (ruleA (build_decision_dataset alert25)).isSome = true := by
    refine (ruleA_isSome_iff _).mpr ⟨by decide, ?_⟩
    rw [hp]
    norm_num
  obtain ⟨bA, hbA⟩ := Option.isSome_iff_exists.mp hA
  have hbAid : bA.rule_id = "AML-001" := ruleA_rule_id _ bA hbA
  have hblocks : pipelineBlocks alert25 = [bA] := by
    show (evaluate_rules (build_decision_dataset alert25)).1 = [bA]
    rw [evaluate_rules_fst, hbA,
      (by decide : ruleB (build_decision_dataset alert25) = none),
      (by decide : ruleC (build_decision_dataset alert25) = none)]
    rfl
  have hjur : ((pipelineBlocks alert25).filter
      fun b => Py.containsSubStr "AML-021" b.rule_id) = [] := by
    rw [hblocks]
    have hsub : Py.containsSubStr "AML-021" bA.rule_id = false := by
      rw [hbAid]; decide
    simp [List.filter, hsub]
  have hlow : (pipelineRisk alert25).risk_level = "LOW" := by
    show (assess_risk (build_decision_dataset alert25) (pipelineBlocks alert25)).risk_level = "LOW"
    exact assess_risk_level_low _ _ hjur (by decide)
  refine ⟨by decide, by decide, by decide, by decide, by decide, by decide, hA, hlow, ?_⟩
  rw [hlow]
  decide
